import Mathlib

/-!
# Verification of the AirLens pollutant-resolution pipeline (`src/app.py`)

Shallow embedding of the data model and operations of `app.py`:

* Python floats are modelled as exact rationals (`ℚ`); where a definition is
  reused at `ℝ` (for the `math.sin` baseline) it is stated polymorphically over
  a `LinearOrderedField` with a `FloorRing`.  At an exact decimal tie the
  float program may round differently (the underlying binary float is rarely
  exactly on the tie), so every concrete evaluation cited as evidence below
  uses tie-free inputs, where exact-rational and float results agree.
* Python's `round` builtin (round-half-to-even) is modelled by `rhe`;
  `round(x, 1)` and `round(x, 2)` by `round1` / `round2`.
* `try/except` fallbacks are modelled with `Option` / `Except`.
* Network endpoints are modelled as functions from a radius to an optional
  decoded JSON payload (`none` = request failure, HTTP error or parse error,
  all of which `safe_get` / the sweep's `except` clauses swallow).
-/

namespace AirLens

/-- Python's `round` builtin on a nonnegative-exponent value: round half to
even, as used by `int(round(aqi))` in `pm25_to_aqi` and by `round(x, n)`. -/
def rhe {α : Type*} [LinearOrderedField α] [FloorRing α] (q : α) : ℤ :=
  if q - ⌊q⌋ < 1/2 then ⌊q⌋
  else if 1/2 < q - ⌊q⌋ then ⌊q⌋ + 1
  else if 2 ∣ ⌊q⌋ then ⌊q⌋ else ⌊q⌋ + 1

/-- Python's `round(x, 1)`. -/
def round1 {α : Type*} [LinearOrderedField α] [FloorRing α] (x : α) : α :=
  (rhe (x * 10) : α) / 10

/-- Python's `round(x, 2)`. -/
def round2 {α : Type*} [LinearOrderedField α] [FloorRing α] (x : α) : α :=
  (rhe (x * 100) : α) / 100

section RheLemmas

variable {α : Type*} [LinearOrderedField α] [FloorRing α]

lemma floor_le_rhe (q : α) : ⌊q⌋ ≤ rhe q := by
  unfold rhe; split_ifs <;> omega

lemma rhe_le_floor_add_one (q : α) : rhe q ≤ ⌊q⌋ + 1 := by
  unfold rhe; split_ifs <;> omega

lemma rhe_intCast (n : ℤ) : rhe (n : α) = n := by
  unfold rhe
  rw [Int.floor_intCast]
  rw [if_pos]
  rw [sub_self]
  norm_num

lemma rhe_mono {x y : α} (h : x ≤ y) : rhe x ≤ rhe y := by
  have hf : ⌊x⌋ ≤ ⌊y⌋ := Int.floor_mono h
  rcases lt_or_eq_of_le hf with hlt | heq
  · have h1 := rhe_le_floor_add_one x
    have h2 := floor_le_rhe y
    omega
  · unfold rhe
    rw [← heq]
    have hfx : ((⌊x⌋ : α)) ≤ x := Int.floor_le x
    split_ifs <;> first | omega | linarith

lemma le_rhe_of_le {x : α} {n : ℤ} (h : (n : α) ≤ x) : n ≤ rhe x := by
  have h2 := rhe_mono h
  rwa [rhe_intCast] at h2

lemma rhe_le_of_le {x : α} {n : ℤ} (h : x ≤ (n : α)) : rhe x ≤ n := by
  have h2 := rhe_mono h
  rwa [rhe_intCast] at h2

end RheLemmas

/-! ## AQI conversion (`pm25_to_aqi`, app.py lines 131-149) -/

/-- The EPA PM2.5 breakpoint table `EPA_BP`:
`(conc_low, conc_high, index_low, index_high)` per band. -/
def EPA_BP : List (ℚ × ℚ × ℤ × ℤ) :=
  [(0, 12, 0, 50),
   (121/10, 354/10, 51, 100),
   (355/10, 554/10, 101, 150),
   (555/10, 1504/10, 151, 200),
   (1505/10, 2504/10, 201, 300),
   (2505/10, 3504/10, 301, 400),
   (3505/10, 5004/10, 401, 500)]

/-- The in-band linear interpolation
`((a_h - a_l)/(pm_h - pm_l)) * (pm - pm_l) + a_l`. -/
def interp (lo hi : ℚ) (al ah : ℤ) (pm : ℚ) : ℚ :=
  ((ah : ℚ) - (al : ℚ)) / (hi - lo) * (pm - lo) + (al : ℚ)

/-- The `for (pm_l, pm_h, a_l, a_h) in EPA_BP` loop of `pm25_to_aqi`:
first band containing `pm` wins, otherwise the trailing `return 500`. -/
def aqiLoop (pm : ℚ) : List (ℚ × ℚ × ℤ × ℤ) → ℤ
  | [] => 500
  | b :: rest =>
    if b.1 ≤ pm ∧ pm ≤ b.2.1 then rhe (interp b.1 b.2.1 b.2.2.1 b.2.2.2 pm)
    else aqiLoop pm rest

/-- Function `pm25_to_aqi` on an input that converted to a number. -/
def pm25_to_aqi_num (pm : ℚ) : ℤ := aqiLoop pm EPA_BP

/-- Function `pm25_to_aqi`: the `float(pm)` conversion may raise, in which case the
function returns `None`; a failed conversion is modelled by a `none` input. -/
def pm25_to_aqi : Option ℚ → Option ℤ
  | none => none
  | some pm => some (pm25_to_aqi_num pm)

/-- Predicate: `pm` is inside one of the seven EPA breakpoint bands. -/
def InEpaBand (pm : ℚ) : Prop := ∃ b ∈ EPA_BP, b.1 ≤ pm ∧ pm ≤ b.2.1

section InterpLemmas

variable {lo hi pm pm1 pm2 : ℚ} {al ah : ℤ}

lemma interp_ge_low (hlh : lo < hi) (hla : al ≤ ah) (h : lo ≤ pm) :
    (al : ℚ) ≤ interp lo hi al ah pm := by
  have hc : (0:ℚ) ≤ ((ah : ℚ) - al) / (hi - lo) := by
    apply div_nonneg
    · simp only [sub_nonneg]; exact_mod_cast hla
    · linarith
  have := mul_nonneg hc (by linarith : (0:ℚ) ≤ pm - lo)
  unfold interp; linarith

lemma interp_le_high (hlh : lo < hi) (hla : al ≤ ah) (h : pm ≤ hi) :
    interp lo hi al ah pm ≤ (ah : ℚ) := by
  have hc : (0:ℚ) ≤ ((ah : ℚ) - al) / (hi - lo) := by
    apply div_nonneg
    · simp only [sub_nonneg]; exact_mod_cast hla
    · linarith
  have h1 : ((ah : ℚ) - al) / (hi - lo) * (pm - lo)
      ≤ ((ah : ℚ) - al) / (hi - lo) * (hi - lo) :=
    mul_le_mul_of_nonneg_left (by linarith) hc
  have h2 : ((ah : ℚ) - al) / (hi - lo) * (hi - lo) = (ah : ℚ) - al :=
    div_mul_cancel₀ _ (by linarith : hi - lo ≠ 0)
  unfold interp; linarith

lemma interp_mono (hlh : lo < hi) (hla : al ≤ ah) (h : pm1 ≤ pm2) :
    interp lo hi al ah pm1 ≤ interp lo hi al ah pm2 := by
  have hc : (0:ℚ) ≤ ((ah : ℚ) - al) / (hi - lo) := by
    apply div_nonneg
    · simp only [sub_nonneg]; exact_mod_cast hla
    · linarith
  have := mul_le_mul_of_nonneg_left (sub_le_sub_right h lo) hc
  unfold interp; linarith

end InterpLemmas

lemma mem_bp1 : ((0, 12, 0, 50) : ℚ × ℚ × ℤ × ℤ) ∈ EPA_BP := by
  unfold EPA_BP; exact List.mem_cons_self _ _

lemma mem_bp2 : ((121/10, 354/10, 51, 100) : ℚ × ℚ × ℤ × ℤ) ∈ EPA_BP := by
  unfold EPA_BP; exact List.mem_cons_of_mem _ (List.mem_cons_self _ _)

lemma mem_bp3 : ((355/10, 554/10, 101, 150) : ℚ × ℚ × ℤ × ℤ) ∈ EPA_BP := by
  unfold EPA_BP; exact List.mem_cons_of_mem _ (List.mem_cons_of_mem _ (List.mem_cons_self _ _))

lemma mem_bp4 : ((555/10, 1504/10, 151, 200) : ℚ × ℚ × ℤ × ℤ) ∈ EPA_BP := by
  unfold EPA_BP; exact List.mem_cons_of_mem _ (List.mem_cons_of_mem _ (List.mem_cons_of_mem _ (List.mem_cons_self _ _)))

lemma mem_bp5 : ((1505/10, 2504/10, 201, 300) : ℚ × ℚ × ℤ × ℤ) ∈ EPA_BP := by
  unfold EPA_BP; exact List.mem_cons_of_mem _ (List.mem_cons_of_mem _ (List.mem_cons_of_mem _ (List.mem_cons_of_mem _ (List.mem_cons_self _ _))))

lemma mem_bp6 : ((2505/10, 3504/10, 301, 400) : ℚ × ℚ × ℤ × ℤ) ∈ EPA_BP := by
  unfold EPA_BP; exact List.mem_cons_of_mem _ (List.mem_cons_of_mem _ (List.mem_cons_of_mem _ (List.mem_cons_of_mem _ (List.mem_cons_of_mem _ (List.mem_cons_self _ _)))))

lemma mem_bp7 : ((3505/10, 5004/10, 401, 500) : ℚ × ℚ × ℤ × ℤ) ∈ EPA_BP := by
  unfold EPA_BP; exact List.mem_cons_of_mem _ (List.mem_cons_of_mem _ (List.mem_cons_of_mem _ (List.mem_cons_of_mem _ (List.mem_cons_of_mem _ (List.mem_cons_of_mem _ (List.mem_cons_self _ _))))))

section AqiLemmas

variable {pm : ℚ}

lemma aqi_eq1 (h1 : 0 ≤ pm) (h2 : pm ≤ 12) :
    pm25_to_aqi_num pm = rhe (interp 0 12 0 50 pm) := by
  simp only [pm25_to_aqi_num, EPA_BP, aqiLoop]
  rw [if_pos ⟨h1, h2⟩]

lemma aqi_eq2 (h1 : 121/10 ≤ pm) (h2 : pm ≤ 354/10) :
    pm25_to_aqi_num pm = rhe (interp (121/10) (354/10) 51 100 pm) := by
  simp only [pm25_to_aqi_num, EPA_BP, aqiLoop]
  rw [if_neg (by rintro ⟨-, h⟩; linarith), if_pos ⟨h1, h2⟩]

lemma aqi_eq3 (h1 : 355/10 ≤ pm) (h2 : pm ≤ 554/10) :
    pm25_to_aqi_num pm = rhe (interp (355/10) (554/10) 101 150 pm) := by
  simp only [pm25_to_aqi_num, EPA_BP, aqiLoop]
  rw [if_neg (by rintro ⟨-, h⟩; linarith), if_neg (by rintro ⟨-, h⟩; linarith),
    if_pos ⟨h1, h2⟩]

lemma aqi_eq4 (h1 : 555/10 ≤ pm) (h2 : pm ≤ 1504/10) :
    pm25_to_aqi_num pm = rhe (interp (555/10) (1504/10) 151 200 pm) := by
  simp only [pm25_to_aqi_num, EPA_BP, aqiLoop]
  rw [if_neg (by rintro ⟨-, h⟩; linarith), if_neg (by rintro ⟨-, h⟩; linarith),
    if_neg (by rintro ⟨-, h⟩; linarith), if_pos ⟨h1, h2⟩]

lemma aqi_eq5 (h1 : 1505/10 ≤ pm) (h2 : pm ≤ 2504/10) :
    pm25_to_aqi_num pm = rhe (interp (1505/10) (2504/10) 201 300 pm) := by
  simp only [pm25_to_aqi_num, EPA_BP, aqiLoop]
  rw [if_neg (by rintro ⟨-, h⟩; linarith), if_neg (by rintro ⟨-, h⟩; linarith),
    if_neg (by rintro ⟨-, h⟩; linarith), if_neg (by rintro ⟨-, h⟩; linarith),
    if_pos ⟨h1, h2⟩]

lemma aqi_eq6 (h1 : 2505/10 ≤ pm) (h2 : pm ≤ 3504/10) :
    pm25_to_aqi_num pm = rhe (interp (2505/10) (3504/10) 301 400 pm) := by
  simp only [pm25_to_aqi_num, EPA_BP, aqiLoop]
  rw [if_neg (by rintro ⟨-, h⟩; linarith), if_neg (by rintro ⟨-, h⟩; linarith),
    if_neg (by rintro ⟨-, h⟩; linarith), if_neg (by rintro ⟨-, h⟩; linarith),
    if_neg (by rintro ⟨-, h⟩; linarith), if_pos ⟨h1, h2⟩]

lemma aqi_eq7 (h1 : 3505/10 ≤ pm) (h2 : pm ≤ 5004/10) :
    pm25_to_aqi_num pm = rhe (interp (3505/10) (5004/10) 401 500 pm) := by
  simp only [pm25_to_aqi_num, EPA_BP, aqiLoop]
  rw [if_neg (by rintro ⟨-, h⟩; linarith), if_neg (by rintro ⟨-, h⟩; linarith),
    if_neg (by rintro ⟨-, h⟩; linarith), if_neg (by rintro ⟨-, h⟩; linarith),
    if_neg (by rintro ⟨-, h⟩; linarith), if_neg (by rintro ⟨-, h⟩; linarith),
    if_pos ⟨h1, h2⟩]

lemma aqi_unmatched
    (h1 : ¬(0 ≤ pm ∧ pm ≤ 12))
    (h2 : ¬(121/10 ≤ pm ∧ pm ≤ 354/10))
    (h3 : ¬(355/10 ≤ pm ∧ pm ≤ 554/10))
    (h4 : ¬(555/10 ≤ pm ∧ pm ≤ 1504/10))
    (h5 : ¬(1505/10 ≤ pm ∧ pm ≤ 2504/10))
    (h6 : ¬(2505/10 ≤ pm ∧ pm ≤ 3504/10))
    (h7 : ¬(3505/10 ≤ pm ∧ pm ≤ 5004/10)) :
    pm25_to_aqi_num pm = 500 := by
  simp only [pm25_to_aqi_num, EPA_BP, aqiLoop]
  rw [if_neg h1, if_neg h2, if_neg h3, if_neg h4, if_neg h5, if_neg h6,
    if_neg h7]

/-- Within any table band, the interpolated-and-rounded index is between the
band's low and high index. -/
lemma aqi_bounds_of_band {b : ℚ × ℚ × ℤ × ℤ} (hb : b ∈ EPA_BP)
    (hlo : b.1 ≤ pm) (hhi : pm ≤ b.2.1) :
    b.2.2.1 ≤ pm25_to_aqi_num pm ∧ pm25_to_aqi_num pm ≤ b.2.2.2 := by
  simp only [EPA_BP, List.mem_cons, List.not_mem_nil, or_false] at hb
  rcases hb with rfl | rfl | rfl | rfl | rfl | rfl | rfl
  · rw [aqi_eq1 hlo hhi]
    exact ⟨le_rhe_of_le (interp_ge_low (by norm_num) (by norm_num) hlo),
      rhe_le_of_le (interp_le_high (by norm_num) (by norm_num) hhi)⟩
  · rw [aqi_eq2 hlo hhi]
    exact ⟨le_rhe_of_le (interp_ge_low (by norm_num) (by norm_num) hlo),
      rhe_le_of_le (interp_le_high (by norm_num) (by norm_num) hhi)⟩
  · rw [aqi_eq3 hlo hhi]
    exact ⟨le_rhe_of_le (interp_ge_low (by norm_num) (by norm_num) hlo),
      rhe_le_of_le (interp_le_high (by norm_num) (by norm_num) hhi)⟩
  · rw [aqi_eq4 hlo hhi]
    exact ⟨le_rhe_of_le (interp_ge_low (by norm_num) (by norm_num) hlo),
      rhe_le_of_le (interp_le_high (by norm_num) (by norm_num) hhi)⟩
  · rw [aqi_eq5 hlo hhi]
    exact ⟨le_rhe_of_le (interp_ge_low (by norm_num) (by norm_num) hlo),
      rhe_le_of_le (interp_le_high (by norm_num) (by norm_num) hhi)⟩
  · rw [aqi_eq6 hlo hhi]
    exact ⟨le_rhe_of_le (interp_ge_low (by norm_num) (by norm_num) hlo),
      rhe_le_of_le (interp_le_high (by norm_num) (by norm_num) hhi)⟩
  · rw [aqi_eq7 hlo hhi]
    exact ⟨le_rhe_of_le (interp_ge_low (by norm_num) (by norm_num) hlo),
      rhe_le_of_le (interp_le_high (by norm_num) (by norm_num) hhi)⟩

/-- Monotonicity of `pm25_to_aqi_num` for two inputs inside the same band. -/
lemma aqi_mono_same_band {b : ℚ × ℚ × ℤ × ℤ} {pm1 pm2 : ℚ} (hb : b ∈ EPA_BP)
    (hlo1 : b.1 ≤ pm1) (hhi1 : pm1 ≤ b.2.1)
    (hlo2 : b.1 ≤ pm2) (hhi2 : pm2 ≤ b.2.1) (hle : pm1 ≤ pm2) :
    pm25_to_aqi_num pm1 ≤ pm25_to_aqi_num pm2 := by
  simp only [EPA_BP, List.mem_cons, List.not_mem_nil, or_false] at hb
  rcases hb with rfl | rfl | rfl | rfl | rfl | rfl | rfl
  · rw [aqi_eq1 hlo1 hhi1, aqi_eq1 hlo2 hhi2]
    exact rhe_mono (interp_mono (by norm_num) (by norm_num) hle)
  · rw [aqi_eq2 hlo1 hhi1, aqi_eq2 hlo2 hhi2]
    exact rhe_mono (interp_mono (by norm_num) (by norm_num) hle)
  · rw [aqi_eq3 hlo1 hhi1, aqi_eq3 hlo2 hhi2]
    exact rhe_mono (interp_mono (by norm_num) (by norm_num) hle)
  · rw [aqi_eq4 hlo1 hhi1, aqi_eq4 hlo2 hhi2]
    exact rhe_mono (interp_mono (by norm_num) (by norm_num) hle)
  · rw [aqi_eq5 hlo1 hhi1, aqi_eq5 hlo2 hhi2]
    exact rhe_mono (interp_mono (by norm_num) (by norm_num) hle)
  · rw [aqi_eq6 hlo1 hhi1, aqi_eq6 hlo2 hhi2]
    exact rhe_mono (interp_mono (by norm_num) (by norm_num) hle)
  · rw [aqi_eq7 hlo1 hhi1, aqi_eq7 hlo2 hhi2]
    exact rhe_mono (interp_mono (by norm_num) (by norm_num) hle)

end AqiLemmas

/-! ## Claims C1, C8, C10 about `pm25_to_aqi` -/

/-- C1, counterexample: `pm25_to_aqi` is NOT monotonically non-decreasing on
all of `[0, 500.4]` — at `pm1 = 12.05` (inside the gap between the first two
EPA bands) no band matches and the function returns `500`, while at
`pm2 = 12.1` it returns `51`. -/
theorem pm25_to_aqi_not_monotone_on_interval :
    ¬ (∀ pm1 pm2 : ℚ, 0 ≤ pm1 → pm1 ≤ pm2 → pm2 ≤ 5004/10 →
        pm25_to_aqi_num pm1 ≤ pm25_to_aqi_num pm2) := by
  intro h
  have h1 : pm25_to_aqi_num (241/20) = 500 := by
    norm_num [pm25_to_aqi_num, EPA_BP, aqiLoop, interp, rhe]
  have h2 : pm25_to_aqi_num (121/10) = 51 := by
    norm_num [pm25_to_aqi_num, EPA_BP, aqiLoop, interp, rhe]
  have h3 := h (241/20) (121/10) (by norm_num) (by norm_num) (by norm_num)
  omega

/-- C1 (amended): for every `pm` in `[0, 500.4]`, `pm25_to_aqi` returns an
integer in `[0, 500]`; and it is monotonically non-decreasing on the union of
the EPA breakpoint bands (between bands the gap values return the sentinel
`500`, which breaks monotonicity on the full interval). -/
theorem pm25_to_aqi_range_and_band_mono :
    (∀ pm : ℚ, 0 ≤ pm → pm ≤ 5004/10 →
      0 ≤ pm25_to_aqi_num pm ∧ pm25_to_aqi_num pm ≤ 500) ∧
    (∀ pm1 pm2 : ℚ, InEpaBand pm1 → InEpaBand pm2 → pm1 ≤ pm2 →
      pm25_to_aqi_num pm1 ≤ pm25_to_aqi_num pm2) := by
  constructor
  · intro pm h0 htop
    rcases le_or_lt pm 12 with h | h
    · have B := aqi_bounds_of_band mem_bp1 h0 h
      dsimp only at B
      omega
    rcases lt_or_le pm (121/10) with h2 | h2
    · rw [aqi_unmatched (by rintro ⟨ha, hb⟩; linarith)
        (by rintro ⟨ha, hb⟩; linarith) (by rintro ⟨ha, hb⟩; linarith)
        (by rintro ⟨ha, hb⟩; linarith) (by rintro ⟨ha, hb⟩; linarith)
        (by rintro ⟨ha, hb⟩; linarith) (by rintro ⟨ha, hb⟩; linarith)]
      omega
    rcases le_or_lt pm (354/10) with h3 | h3
    · have B := aqi_bounds_of_band mem_bp2 h2 h3
      dsimp only at B
      omega
    rcases lt_or_le pm (355/10) with h4 | h4
    · rw [aqi_unmatched (by rintro ⟨ha, hb⟩; linarith)
        (by rintro ⟨ha, hb⟩; linarith) (by rintro ⟨ha, hb⟩; linarith)
        (by rintro ⟨ha, hb⟩; linarith) (by rintro ⟨ha, hb⟩; linarith)
        (by rintro ⟨ha, hb⟩; linarith) (by rintro ⟨ha, hb⟩; linarith)]
      omega
    rcases le_or_lt pm (554/10) with h5 | h5
    · have B := aqi_bounds_of_band mem_bp3 h4 h5
      dsimp only at B
      omega
    rcases lt_or_le pm (555/10) with h6 | h6
    · rw [aqi_unmatched (by rintro ⟨ha, hb⟩; linarith)
        (by rintro ⟨ha, hb⟩; linarith) (by rintro ⟨ha, hb⟩; linarith)
        (by rintro ⟨ha, hb⟩; linarith) (by rintro ⟨ha, hb⟩; linarith)
        (by rintro ⟨ha, hb⟩; linarith) (by rintro ⟨ha, hb⟩; linarith)]
      omega
    rcases le_or_lt pm (1504/10) with h7 | h7
    · have B := aqi_bounds_of_band mem_bp4 h6 h7
      dsimp only at B
      omega
    rcases lt_or_le pm (1505/10) with h8 | h8
    · rw [aqi_unmatched (by rintro ⟨ha, hb⟩; linarith)
        (by rintro ⟨ha, hb⟩; linarith) (by rintro ⟨ha, hb⟩; linarith)
        (by rintro ⟨ha, hb⟩; linarith) (by rintro ⟨ha, hb⟩; linarith)
        (by rintro ⟨ha, hb⟩; linarith) (by rintro ⟨ha, hb⟩; linarith)]
      omega
    rcases le_or_lt pm (2504/10) with h9 | h9
    · have B := aqi_bounds_of_band mem_bp5 h8 h9
      dsimp only at B
      omega
    rcases lt_or_le pm (2505/10) with h10 | h10
    · rw [aqi_unmatched (by rintro ⟨ha, hb⟩; linarith)
        (by rintro ⟨ha, hb⟩; linarith) (by rintro ⟨ha, hb⟩; linarith)
        (by rintro ⟨ha, hb⟩; linarith) (by rintro ⟨ha, hb⟩; linarith)
        (by rintro ⟨ha, hb⟩; linarith) (by rintro ⟨ha, hb⟩; linarith)]
      omega
    rcases le_or_lt pm (3504/10) with h11 | h11
    · have B := aqi_bounds_of_band mem_bp6 h10 h11
      dsimp only at B
      omega
    rcases lt_or_le pm (3505/10) with h12 | h12
    · rw [aqi_unmatched (by rintro ⟨ha, hb⟩; linarith)
        (by rintro ⟨ha, hb⟩; linarith) (by rintro ⟨ha, hb⟩; linarith)
        (by rintro ⟨ha, hb⟩; linarith) (by rintro ⟨ha, hb⟩; linarith)
        (by rintro ⟨ha, hb⟩; linarith) (by rintro ⟨ha, hb⟩; linarith)]
      omega
    have B := aqi_bounds_of_band mem_bp7 h12 htop
    dsimp only at B
    omega
  · rintro pm1 pm2 ⟨b1, hb1, hlo1, hhi1⟩ ⟨b2, hb2, hlo2, hhi2⟩ hle
    simp only [EPA_BP, List.mem_cons, List.not_mem_nil, or_false] at hb1 hb2
    rcases hb1 with rfl | rfl | rfl | rfl | rfl | rfl | rfl
    · rcases hb2 with rfl | rfl | rfl | rfl | rfl | rfl | rfl
      · exact aqi_mono_same_band mem_bp1 hlo1 hhi1 hlo2 hhi2 hle
      · have B1 := aqi_bounds_of_band mem_bp1 hlo1 hhi1
        have B2 := aqi_bounds_of_band mem_bp2 hlo2 hhi2
        dsimp only at B1 B2
        omega
      · have B1 := aqi_bounds_of_band mem_bp1 hlo1 hhi1
        have B2 := aqi_bounds_of_band mem_bp3 hlo2 hhi2
        dsimp only at B1 B2
        omega
      · have B1 := aqi_bounds_of_band mem_bp1 hlo1 hhi1
        have B2 := aqi_bounds_of_band mem_bp4 hlo2 hhi2
        dsimp only at B1 B2
        omega
      · have B1 := aqi_bounds_of_band mem_bp1 hlo1 hhi1
        have B2 := aqi_bounds_of_band mem_bp5 hlo2 hhi2
        dsimp only at B1 B2
        omega
      · have B1 := aqi_bounds_of_band mem_bp1 hlo1 hhi1
        have B2 := aqi_bounds_of_band mem_bp6 hlo2 hhi2
        dsimp only at B1 B2
        omega
      · have B1 := aqi_bounds_of_band mem_bp1 hlo1 hhi1
        have B2 := aqi_bounds_of_band mem_bp7 hlo2 hhi2
        dsimp only at B1 B2
        omega
    · rcases hb2 with rfl | rfl | rfl | rfl | rfl | rfl | rfl
      · exfalso
        dsimp only at hlo1 hhi2
        linarith
      · exact aqi_mono_same_band mem_bp2 hlo1 hhi1 hlo2 hhi2 hle
      · have B1 := aqi_bounds_of_band mem_bp2 hlo1 hhi1
        have B2 := aqi_bounds_of_band mem_bp3 hlo2 hhi2
        dsimp only at B1 B2
        omega
      · have B1 := aqi_bounds_of_band mem_bp2 hlo1 hhi1
        have B2 := aqi_bounds_of_band mem_bp4 hlo2 hhi2
        dsimp only at B1 B2
        omega
      · have B1 := aqi_bounds_of_band mem_bp2 hlo1 hhi1
        have B2 := aqi_bounds_of_band mem_bp5 hlo2 hhi2
        dsimp only at B1 B2
        omega
      · have B1 := aqi_bounds_of_band mem_bp2 hlo1 hhi1
        have B2 := aqi_bounds_of_band mem_bp6 hlo2 hhi2
        dsimp only at B1 B2
        omega
      · have B1 := aqi_bounds_of_band mem_bp2 hlo1 hhi1
        have B2 := aqi_bounds_of_band mem_bp7 hlo2 hhi2
        dsimp only at B1 B2
        omega
    · rcases hb2 with rfl | rfl | rfl | rfl | rfl | rfl | rfl
      · exfalso
        dsimp only at hlo1 hhi2
        linarith
      · exfalso
        dsimp only at hlo1 hhi2
        linarith
      · exact aqi_mono_same_band mem_bp3 hlo1 hhi1 hlo2 hhi2 hle
      · have B1 := aqi_bounds_of_band mem_bp3 hlo1 hhi1
        have B2 := aqi_bounds_of_band mem_bp4 hlo2 hhi2
        dsimp only at B1 B2
        omega
      · have B1 := aqi_bounds_of_band mem_bp3 hlo1 hhi1
        have B2 := aqi_bounds_of_band mem_bp5 hlo2 hhi2
        dsimp only at B1 B2
        omega
      · have B1 := aqi_bounds_of_band mem_bp3 hlo1 hhi1
        have B2 := aqi_bounds_of_band mem_bp6 hlo2 hhi2
        dsimp only at B1 B2
        omega
      · have B1 := aqi_bounds_of_band mem_bp3 hlo1 hhi1
        have B2 := aqi_bounds_of_band mem_bp7 hlo2 hhi2
        dsimp only at B1 B2
        omega
    · rcases hb2 with rfl | rfl | rfl | rfl | rfl | rfl | rfl
      · exfalso
        dsimp only at hlo1 hhi2
        linarith
      · exfalso
        dsimp only at hlo1 hhi2
        linarith
      · exfalso
        dsimp only at hlo1 hhi2
        linarith
      · exact aqi_mono_same_band mem_bp4 hlo1 hhi1 hlo2 hhi2 hle
      · have B1 := aqi_bounds_of_band mem_bp4 hlo1 hhi1
        have B2 := aqi_bounds_of_band mem_bp5 hlo2 hhi2
        dsimp only at B1 B2
        omega
      · have B1 := aqi_bounds_of_band mem_bp4 hlo1 hhi1
        have B2 := aqi_bounds_of_band mem_bp6 hlo2 hhi2
        dsimp only at B1 B2
        omega
      · have B1 := aqi_bounds_of_band mem_bp4 hlo1 hhi1
        have B2 := aqi_bounds_of_band mem_bp7 hlo2 hhi2
        dsimp only at B1 B2
        omega
    · rcases hb2 with rfl | rfl | rfl | rfl | rfl | rfl | rfl
      · exfalso
        dsimp only at hlo1 hhi2
        linarith
      · exfalso
        dsimp only at hlo1 hhi2
        linarith
      · exfalso
        dsimp only at hlo1 hhi2
        linarith
      · exfalso
        dsimp only at hlo1 hhi2
        linarith
      · exact aqi_mono_same_band mem_bp5 hlo1 hhi1 hlo2 hhi2 hle
      · have B1 := aqi_bounds_of_band mem_bp5 hlo1 hhi1
        have B2 := aqi_bounds_of_band mem_bp6 hlo2 hhi2
        dsimp only at B1 B2
        omega
      · have B1 := aqi_bounds_of_band mem_bp5 hlo1 hhi1
        have B2 := aqi_bounds_of_band mem_bp7 hlo2 hhi2
        dsimp only at B1 B2
        omega
    · rcases hb2 with rfl | rfl | rfl | rfl | rfl | rfl | rfl
      · exfalso
        dsimp only at hlo1 hhi2
        linarith
      · exfalso
        dsimp only at hlo1 hhi2
        linarith
      · exfalso
        dsimp only at hlo1 hhi2
        linarith
      · exfalso
        dsimp only at hlo1 hhi2
        linarith
      · exfalso
        dsimp only at hlo1 hhi2
        linarith
      · exact aqi_mono_same_band mem_bp6 hlo1 hhi1 hlo2 hhi2 hle
      · have B1 := aqi_bounds_of_band mem_bp6 hlo1 hhi1
        have B2 := aqi_bounds_of_band mem_bp7 hlo2 hhi2
        dsimp only at B1 B2
        omega
    · rcases hb2 with rfl | rfl | rfl | rfl | rfl | rfl | rfl
      · exfalso
        dsimp only at hlo1 hhi2
        linarith
      · exfalso
        dsimp only at hlo1 hhi2
        linarith
      · exfalso
        dsimp only at hlo1 hhi2
        linarith
      · exfalso
        dsimp only at hlo1 hhi2
        linarith
      · exfalso
        dsimp only at hlo1 hhi2
        linarith
      · exfalso
        dsimp only at hlo1 hhi2
        linarith
      · exact aqi_mono_same_band mem_bp7 hlo1 hhi1 hlo2 hhi2 hle

/-- Witness for the amended C1 theorem at `pm = 10` and `pm1 = 10 ≤ pm2 = 13`. -/
theorem pm25_to_aqi_range_and_band_mono_witness :
    (0 ≤ pm25_to_aqi_num 10 ∧ pm25_to_aqi_num 10 ≤ 500) ∧
    pm25_to_aqi_num 10 ≤ pm25_to_aqi_num 13 :=
  ⟨pm25_to_aqi_range_and_band_mono.1 10 (by norm_num) (by norm_num),
   pm25_to_aqi_range_and_band_mono.2 10 13
     ⟨(0, 12, 0, 50), mem_bp1, by norm_num, by norm_num⟩
     ⟨(121/10, 354/10, 51, 100), mem_bp2, by norm_num, by norm_num⟩
     (by norm_num)⟩

/-- C8: `pm25_to_aqi` returns the sentinel `500` for every numeric input
below `0` or above `500.4`, and returns `None` exactly when the input could
not be converted to a number. -/
theorem pm25_to_aqi_sentinels :
    (∀ pm : ℚ, pm < 0 ∨ 5004/10 < pm → pm25_to_aqi (some pm) = some 500) ∧
    (∀ x : Option ℚ, pm25_to_aqi x = none ↔ x = none) := by
  constructor
  · intro pm h
    have h500 : pm25_to_aqi_num pm = 500 := by
      rcases h with h | h <;>
        exact aqi_unmatched (by rintro ⟨ha, hb⟩; linarith)
          (by rintro ⟨ha, hb⟩; linarith) (by rintro ⟨ha, hb⟩; linarith)
          (by rintro ⟨ha, hb⟩; linarith) (by rintro ⟨ha, hb⟩; linarith)
          (by rintro ⟨ha, hb⟩; linarith) (by rintro ⟨ha, hb⟩; linarith)
    simp [pm25_to_aqi, h500]
  · intro x
    cases x <;> simp [pm25_to_aqi]

/-- Witness for C8 at `pm = -1` (below range) and at the `none` input. -/
theorem pm25_to_aqi_sentinels_witness :
    pm25_to_aqi (some (-1)) = some 500 ∧
    (pm25_to_aqi none = none ↔ (none : Option ℚ) = none) :=
  ⟨pm25_to_aqi_sentinels.1 (-1) (Or.inl (by norm_num)),
   pm25_to_aqi_sentinels.2 none⟩

/-- C10: every PM2.5 value strictly between two adjacent EPA breakpoint
bands matches no band of the table, so `pm25_to_aqi` returns `500` there. -/
theorem pm25_to_aqi_gap_returns_500 (pm : ℚ)
    (h : (12 < pm ∧ pm < 121/10) ∨ (354/10 < pm ∧ pm < 355/10) ∨
         (554/10 < pm ∧ pm < 555/10) ∨ (1504/10 < pm ∧ pm < 1505/10) ∨
         (2504/10 < pm ∧ pm < 2505/10) ∨ (3504/10 < pm ∧ pm < 3505/10)) :
    pm25_to_aqi_num pm = 500 := by
  rcases h with ⟨h1, h2⟩ | ⟨h1, h2⟩ | ⟨h1, h2⟩ | ⟨h1, h2⟩ | ⟨h1, h2⟩ | ⟨h1, h2⟩ <;>
    exact aqi_unmatched (by rintro ⟨ha, hb⟩; linarith)
      (by rintro ⟨ha, hb⟩; linarith) (by rintro ⟨ha, hb⟩; linarith)
      (by rintro ⟨ha, hb⟩; linarith) (by rintro ⟨ha, hb⟩; linarith)
      (by rintro ⟨ha, hb⟩; linarith) (by rintro ⟨ha, hb⟩; linarith)

/-- Witness for C10 at `pm = 12.05`, inside the first inter-band gap. -/
theorem pm25_to_aqi_gap_returns_500_witness : pm25_to_aqi_num (241/20) = 500 :=
  pm25_to_aqi_gap_returns_500 (241/20)
    (Or.inl ⟨by norm_num, by norm_num⟩)

/-! ## Label normalizer (`normalize_label`, app.py lines 122-128) -/

/-- Model of `str.lower()`, on the alphabet that matters here: ASCII
uppercase letters are mapped to lowercase, every other character (digits,
punctuation and the subscript glyphs) is left unchanged. -/
def pyLower (c : Char) : Char :=
  if 65 ≤ c.toNat ∧ c.toNat ≤ 90 then Char.ofNat (c.toNat + 32) else c

/-- The chained `s.replace("₂", "2").replace("₃", "3").replace("₅", "5")`,
character by character (each pattern is a single character). -/
def subDigits (c : Char) : Char :=
  if c = '₂' then '2' else if c = '₃' then '3' else if c = '₅' then '5' else c

/-- The character class kept by `re.sub(r"[^a-z0-9]", "", s)`. -/
def isKept (c : Char) : Bool :=
  (decide (97 ≤ c.toNat) && decide (c.toNat ≤ 122)) ||
    (decide (48 ≤ c.toNat) && decide (c.toNat ≤ 57))

/-- Function `normalize_label`: `None` maps to `""`; otherwise lower-case, replace the
subscript digit glyphs, strip everything outside `[a-z0-9]`. -/
def normalize_label : Option String → String
  | none => ""
  | some s => ⟨((s.data.map pyLower).map subDigits).filter isKept⟩

lemma kept_pyLower {c : Char} (h : isKept c = true) : pyLower c = c := by
  simp only [isKept, Bool.or_eq_true, Bool.and_eq_true, decide_eq_true_eq] at h
  unfold pyLower
  rw [if_neg]
  rintro ⟨h1, h2⟩
  omega

lemma kept_subDigits {c : Char} (h : isKept c = true) : subDigits c = c := by
  unfold subDigits
  rw [if_neg (fun hc => absurd h (by subst hc; decide)),
    if_neg (fun hc => absurd h (by subst hc; decide)),
    if_neg (fun hc => absurd h (by subst hc; decide))]

lemma filter_map_map_of_kept :
    ∀ l : List Char, (∀ c ∈ l, isKept c = true) →
      ((l.map pyLower).map subDigits).filter isKept = l := by
  intro l hl
  induction l with
  | nil => rfl
  | cons c cs ih =>
    have hc := hl c (List.mem_cons_self c cs)
    simp only [List.map_cons]
    rw [kept_pyLower hc, kept_subDigits hc, List.filter_cons_of_pos hc]
    exact congrArg (List.cons c) (ih fun d hd => hl d (List.mem_cons_of_mem _ hd))

lemma normalize_label_chars_kept (x : Option String) :
    ∀ c ∈ (normalize_label x).data, isKept c = true := by
  cases x with
  | none => intro c hc; simp [normalize_label] at hc
  | some s =>
    intro c hc
    exact (List.mem_filter.mp hc).2

/-- C9: the label normalizer is idempotent on every input; it maps both
`"NO₂"` and `"no2"` to `"no2"`, and a null/absent input to `""`. -/
theorem normalize_label_idempotent :
    (∀ x : Option String,
      normalize_label (some (normalize_label x)) = normalize_label x) ∧
    normalize_label (some "NO₂") = "no2" ∧
    normalize_label (some "no2") = "no2" ∧
    normalize_label none = "" := by
  refine ⟨?_, by decide, by decide, rfl⟩
  intro x
  show (⟨((((normalize_label x).data).map pyLower).map subDigits).filter
    isKept⟩ : String) = normalize_label x
  rw [filter_map_map_of_kept _ (normalize_label_chars_kept x)]

/-! ## Forecast generator (`hourly_forecast_pm`, app.py lines 156-163) -/

/-- The seed expression `int((float(current_pm) * 100) % 10000)`: Python's
float `%` is `x - m * floor(x / m)` for a positive modulus `m`, and `int`
truncates the nonnegative result, i.e. takes its floor. -/
def forecast_seed {α : Type*} [LinearOrderedField α] [FloorRing α]
    (current_pm : α) : ℤ :=
  ⌊current_pm * 100 - 10000 * (⌊current_pm * 100 / 10000⌋ : α)⌋

/-- Model of `rng.normal(0, scale)`: `scale` times the `i`-th standard-normal variate
of the generator seeded with `s`.  The variate stream `gauss` is an abstract
parameter (the PCG64 bit stream is not modelled); every property proved here
holds for an arbitrary stream. -/
def rngNormal {α : Type*} [Mul α] (gauss : ℤ → ℕ → α) (s : ℤ) (i : ℕ)
    (scale : α) : α :=
  scale * gauss s i

/-- The `for _ in range(hours)` loop of `hourly_forecast_pm`:
`last = max(0.1, last + rng.normal(0, max(0.2, current_pm * variance)))`,
appending `round(last, 1)` at each step. -/
def forecastSteps {α : Type*} [LinearOrderedField α] [FloorRing α]
    (gauss : ℤ → ℕ → α) (s : ℤ) (current_pm variance : α) :
    ℕ → ℕ → α → List α
  | 0, _, _ => []
  | n + 1, i, last =>
    let nxt := max (1/10)
      (last + rngNormal gauss s i (max (2/10) (current_pm * variance)))
    round1 nxt :: forecastSteps gauss s current_pm variance n (i + 1) nxt

/-- Function `hourly_forecast_pm(current_pm, hours, variance)`.  The generator is
created by `np.random.default_rng(seed=...)` from the explicit seed; the
ambient global NumPy generator state is threaded as `ambient` only to state
that the function never consults it. -/
def hourly_forecast_pm {α : Type*} [LinearOrderedField α] [FloorRing α]
    (gauss : ℤ → ℕ → α) (ambient : ℤ) (current_pm : α) (hours : ℕ)
    (variance : α) : List α :=
  forecastSteps gauss (forecast_seed current_pm) current_pm variance hours
    0 current_pm

lemma forecastSteps_length {α : Type*} [LinearOrderedField α] [FloorRing α]
    (gauss : ℤ → ℕ → α) (s : ℤ) (pm var : α) :
    ∀ (n i : ℕ) (last : α), (forecastSteps gauss s pm var n i last).length = n := by
  intro n
  induction n with
  | zero => intro i last; rfl
  | succ m ih =>
    intro i last
    simp only [forecastSteps, List.length_cons, ih]

/-- C7: the random-walk forecast branch is deterministic in `pm25Now`: for a
fixed variate stream, two invocations with the same current PM2.5 value, hour
count and variance produce identical series regardless of the ambient global
generator state (the generator is re-seeded from `pm25Now`); the series has
exactly `hours` values. -/
theorem hourly_forecast_pm_deterministic :
    (∀ {α : Type} (_ : LinearOrderedField α) (_ : FloorRing α)
      (gauss : ℤ → ℕ → α) (ambient1 ambient2 : ℤ) (pm : α) (hours : ℕ)
      (variance : α),
      hourly_forecast_pm gauss ambient1 pm hours variance =
        hourly_forecast_pm gauss ambient2 pm hours variance) ∧
    (∀ (gauss : ℤ → ℕ → ℚ) (ambient : ℤ) (pm variance : ℚ),
      (hourly_forecast_pm gauss ambient pm 24 variance).length = 24) := by
  constructor
  · intro α _ _ gauss a1 a2 pm hours variance
    rfl
  · intro gauss ambient pm variance
    exact forecastSteps_length gauss (forecast_seed pm) pm variance 24 0 pm

/-! ## Satellite proxy (`tempo_to_aod_proxy_from_no2`,
`fetch_satellite_proxy`, and the `aod_val` fallback, app.py lines 207-230
and 427-431) -/

/-- Model of `np.clip(x, lo, hi) = min(max(x, lo), hi)`. -/
def clip (x lo hi : ℚ) : ℚ := min (max x lo) hi

/-- Function `tempo_to_aod_proxy_from_no2`: `clip(no2_col / 1e16, 0.03, 1.0)`.  The
`try/except` catches only a failed `float()` conversion, which cannot happen
for a numeric column value; a non-numeric input would yield `none`. -/
def tempo_to_aod_proxy_from_no2 (no2_col : ℚ) : Option ℚ :=
  some (clip (no2_col / 10 ^ 16) (3/100) 1)

/-- Function `fetch_satellite_proxy`: with Earth Engine available, try the TEMPO NO₂
column (`no2res`, `none` models an unavailable or failed query), then the
MODIS AOD query (`modres`), else `(None, "DEMO_FALLBACK")`.  The numeric
suffix that the source interpolates into the labels is omitted. -/
def fetch_satellite_proxy (eeAvailable : Bool) (no2res modres : Option ℚ) :
    Option ℚ × String :=
  if eeAvailable then
    match no2res.bind tempo_to_aod_proxy_from_no2 with
    | some p => (some p, "TEMPO_NO2")
    | none =>
      match modres with
      | some m => (some (clip m (3/100) 1), "MODIS_AOD")
      | none => (none, "DEMO_FALLBACK")
  else (none, "DEMO_FALLBACK")

/-- The caller of `fetch_satellite_proxy` (app.py lines 427-431): when no
satellite value was obtained, derive `clip(pm25 / 150.0, 0.03, 1.0)` and
relabel a `"DEMO_FALLBACK"` source as `"PM2.5_proxy"`. -/
def resolve_aod (eeAvailable : Bool) (no2res modres : Option ℚ) (pm25 : ℚ) :
    ℚ × String :=
  match fetch_satellite_proxy eeAvailable no2res modres with
  | (some v, s) => (v, s)
  | (none, s) =>
    (clip (pm25 / 150) (3/100) 1,
      if s = "DEMO_FALLBACK" then "PM2.5_proxy" else s)

lemma clip_bounds {x lo hi : ℚ} (h : lo ≤ hi) :
    lo ≤ clip x lo hi ∧ clip x lo hi ≤ hi :=
  ⟨le_min (le_max_right x lo) h, min_le_right _ _⟩

lemma fetch_satellite_proxy_none_label {ee : Bool} {nr mr : Option ℚ}
    (h : (fetch_satellite_proxy ee nr mr).1 = none) :
    fetch_satellite_proxy ee nr mr = (none, "DEMO_FALLBACK") := by
  cases ee with
  | false => rfl
  | true =>
    cases nr with
    | some v => simp [fetch_satellite_proxy, tempo_to_aod_proxy_from_no2] at h
    | none =>
      cases mr with
      | some m => simp [fetch_satellite_proxy] at h
      | none => rfl

/-- C6: a trace-gas column value `v` is converted to
`clip(v / 1e16, 0.03, 1.0)` (so `v = 2e16` yields exactly `1.0`); when no
satellite value is obtained the caller derives `clip(pm25 / 150, 0.03, 1.0)`
and labels the source `"PM2.5_proxy"`; and in every case the resolved proxy
value lies in `[0.03, 1.0]`. -/
theorem satellite_proxy_spec :
    tempo_to_aod_proxy_from_no2 (2 * 10 ^ 16) = some 1 ∧
    (∀ (ee : Bool) (nr mr : Option ℚ) (pm : ℚ),
      (fetch_satellite_proxy ee nr mr).1 = none →
      resolve_aod ee nr mr pm = (clip (pm / 150) (3/100) 1, "PM2.5_proxy")) ∧
    (∀ (ee : Bool) (nr mr : Option ℚ) (pm : ℚ),
      3/100 ≤ (resolve_aod ee nr mr pm).1 ∧ (resolve_aod ee nr mr pm).1 ≤ 1) := by
  refine ⟨?_, ?_, ?_⟩
  · unfold tempo_to_aod_proxy_from_no2 clip
    norm_num
  · intro ee nr mr pm h
    unfold resolve_aod
    rw [fetch_satellite_proxy_none_label h]
    simp
  · intro ee nr mr pm
    unfold resolve_aod
    have hb : (3/100 : ℚ) ≤ 1 := by norm_num
    cases ee with
    | false => exact clip_bounds hb
    | true =>
      cases nr with
      | some v =>
        simp only [fetch_satellite_proxy, Option.bind,
          tempo_to_aod_proxy_from_no2, if_true]
        exact clip_bounds hb
      | none =>
        cases mr with
        | some m =>
          simp only [fetch_satellite_proxy, Option.bind, if_true]
          exact clip_bounds hb
        | none => exact clip_bounds hb

/-- Witness for C6: with no Earth Engine backend and `pm25 = 30`, the
resolved proxy is `clip(30/150, 0.03, 1.0) = 0.2` labelled `"PM2.5_proxy"`. -/
theorem satellite_proxy_spec_witness :
    resolve_aod false none none 30 = (1/5, "PM2.5_proxy") := by
  have h := satellite_proxy_spec.2.1 false none none 30 rfl
  rw [h]
  unfold clip
  norm_num

/-! ## OpenAQ adaptive search (`fetch_openaq_adaptive`, app.py lines 235-305)

The two endpoints are modelled as functions from a radius to an optional
decoded payload: `none` stands for a failed `safe_get` or any exception
raised while decoding the response (the loop's `except: continue`). -/

/-- A JSON value found in a measurement's `value` field. -/
inductive JVal where
  | jnum (q : ℚ)
  | jstr (s : String)
  | jnull
deriving DecidableEq

/-- A measurement's `date` sub-dictionary with `utc` / `local` fields. -/
structure OAQDate where
  utc : Option String
  loc : Option String
deriving DecidableEq

/-- A raw measurement of the latest-readings payload. -/
structure OAQMeasurement where
  parameter : Option String
  value : JVal
  date : Option OAQDate
  lastUpdated : Option String
deriving DecidableEq

/-- A normalized measurement `{"parameter": p, "value": v, "lastUpdated": dt}`. -/
structure ParsedMeas where
  parameter : Option String
  value : JVal
  lastUpdated : Option String
deriving DecidableEq

/-- A result entry of the latest-readings payload (only the `measurements`
field is ever read; the entry itself is returned raw). -/
structure StationResult where
  measurements : List OAQMeasurement
deriving DecidableEq

/-- A record of the historical-measurements payload. -/
structure MeasRecord where
  location : Option String
  parameter : Option String
  value : JVal
  date : Option OAQDate
  lastUpdated : Option String
  coordinates : Option (ℚ × ℚ)
deriving DecidableEq

/-- Python truthiness of an optional string (`if ts:`): present and
non-empty. -/
def pyTruthyS : Option String → Bool
  | some s => !s.isEmpty
  | none => false

/-- Python's `a or b` on optional strings. -/
def pyOr (a b : Option String) : Option String := if pyTruthyS a then a else b

/-- The timestamp extraction shared by both sweeps:
`dt = m["date"].get("utc") or m["date"].get("local")` when `date` is a dict,
then `if not dt: dt = m.get("lastUpdated")`. -/
def extractDt (date : Option OAQDate) (lastUpdated : Option String) :
    Option String :=
  let dt0 : Option String :=
    match date with
    | some d => pyOr d.utc d.loc
    | none => none
  if pyTruthyS dt0 then dt0 else lastUpdated

/-- The per-measurement normalization of the latest sweep (app.py 251-259). -/
def parseMeasurement (m : OAQMeasurement) : ParsedMeas :=
  ⟨m.parameter, m.value, extractDt m.date m.lastUpdated⟩

/-- One radius of the latest sweep: the first result entry with a non-empty
`measurements` list wins; `none` when the request failed, the result list was
empty, or every entry had an empty measurement list. -/
def tryLatestRadius (resp : Option (List StationResult)) :
    Option (StationResult × List ParsedMeas) :=
  match resp with
  | none => none
  | some results =>
    match results.find? (fun res => !res.measurements.isEmpty) with
    | some res => some (res, res.measurements.map parseMeasurement)
    | none => none

/-- The `for r in radii` loop over the latest-readings endpoint: the first
radius with data returns immediately, failures fall through to the next
radius. -/
def sweepLatest (latestEP : ℕ → Option (List StationResult)) :
    List ℕ → Option (StationResult × ℕ × List ParsedMeas)
  | [] => none
  | r :: rs =>
    match tryLatestRadius (latestEP r) with
    | some (res, parsed) => some (res, r, parsed)
    | none => sweepLatest latestEP rs

/-- The `by_loc` grouping: an insertion-ordered association list from location to
its list of records plus the coordinates of the first record seen there. -/
def addLoc : List (Option String × List MeasRecord × Option (ℚ × ℚ)) →
    MeasRecord → List (Option String × List MeasRecord × Option (ℚ × ℚ))
  | [], m => [(m.location, [m], m.coordinates)]
  | (k, ms, c) :: rest, m =>
    if k = m.location then (k, ms ++ [m], c) :: rest
    else (k, ms, c) :: addLoc rest m

def groupByLoc (meas : List MeasRecord) :
    List (Option String × List MeasRecord × Option (ℚ × ℚ)) :=
  meas.foldl addLoc []

/-- Model of `max(by_loc.items(), key=...)`: the first entry with the maximal
measurement count (Python's `max` keeps the first maximum). -/
def bestLoc : List (Option String × List MeasRecord × Option (ℚ × ℚ)) →
    Option (Option String × List MeasRecord × Option (ℚ × ℚ))
  | [] => none
  | x :: rest =>
    some (rest.foldl
      (fun best y => if best.2.1.length < y.2.1.length then y else best) x)

/-- Model of `params_seen.setdefault(p, []).append(v)` on an insertion-ordered
association list. -/
def addValue : List (String × List ℚ) → String → ℚ → List (String × List ℚ)
  | [], p, v => [(p, [v])]
  | (q, arr) :: rest, p, v =>
    if q = p then (q, arr ++ [v]) :: rest
    else (q, arr) :: addValue rest p v

/-- Model of `if p not in latest_ts or dt > latest_ts[p]: latest_ts[p] = dt`
(ISO timestamps compared as strings). -/
def updateTs : List (String × String) → String → String →
    List (String × String)
  | [], p, dt => [(p, dt)]
  | (q, t) :: rest, p, dt =>
    if q = p then (if t < dt then (q, dt) :: rest else (q, t) :: rest)
    else (q, t) :: updateTs rest p dt

/-- Model of `latest_ts.get(p)`. -/
def lookupTs : List (String × String) → String → Option String
  | [], _ => none
  | (q, t) :: rest, p => if q = p then some t else lookupTs rest p

/-- The per-record step of the pseudo aggregation (app.py 284-296): keep a
record only if its parameter is truthy and its value numeric; collect the
value and the most recent truthy timestamp per parameter. -/
def collectStep (st : List (String × List ℚ) × List (String × String))
    (m : MeasRecord) : List (String × List ℚ) × List (String × String) :=
  match m.parameter, m.value with
  | some p, JVal.jnum v =>
    if p.isEmpty then st
    else
      let seen := addValue st.1 p v
      match extractDt m.date m.lastUpdated with
      | some d => if d.isEmpty then (seen, st.2) else (seen, updateTs st.2 p d)
      | none => (seen, st.2)
  | _, _ => st

/-- The synthesized pseudo-latest result. -/
structure PseudoResult where
  location : Option String
  coordinates : Option (ℚ × ℚ)
  measurements : List ParsedMeas
deriving DecidableEq

/-- The pseudo aggregation of one radius' historical records: group by
location, take the location with the most samples, average each parameter's
values (`np.mean`, rounded to 2 decimals) and attach its latest timestamp.
`none` only for an empty record list (in the source this code runs only when
records exist). -/
def processPseudo (meas : List MeasRecord) :
    Option (PseudoResult × List ParsedMeas) :=
  match bestLoc (groupByLoc meas) with
  | none => none
  | some (loc, ms, coords) =>
    let st := ms.foldl collectStep ([], [])
    let parsed := st.1.map fun pv =>
      (⟨some pv.1, JVal.jnum (round2 (pv.2.sum / (pv.2.length : ℚ))),
        lookupTs st.2 pv.1⟩ : ParsedMeas)
    some (⟨loc, coords, parsed⟩, parsed)

/-- The `for r in radii` loop over the historical-measurements endpoint. -/
def sweepPseudo (measEP : ℕ → Option (List MeasRecord)) :
    List ℕ → Option (PseudoResult × ℕ × List ParsedMeas)
  | [] => none
  | r :: rs =>
    match measEP r with
    | none => sweepPseudo measEP rs
    | some meas =>
      if meas.isEmpty then sweepPseudo measEP rs
      else
        match processPseudo meas with
        | some (ps, parsed) => some (ps, r, parsed)
        | none => sweepPseudo measEP rs

/-- The quadruple returned by `fetch_openaq_adaptive`. -/
structure FetchResult where
  raw : Option (StationResult ⊕ PseudoResult)
  radius : Option ℕ
  parsed : List ParsedMeas
  mode : Option String
deriving DecidableEq

/-- Function `fetch_openaq_adaptive`: the latest sweep, then the pseudo sweep, then
the empty quadruple `(None, None, [], None)`. -/
def fetch_openaq_adaptive (latestEP : ℕ → Option (List StationResult))
    (measEP : ℕ → Option (List MeasRecord)) (radii : List ℕ) : FetchResult :=
  match sweepLatest latestEP radii with
  | some (res, r, parsed) => ⟨some (Sum.inl res), some r, parsed, some "latest"⟩
  | none =>
    match sweepPseudo measEP radii with
    | some (ps, r, parsed) => ⟨some (Sum.inr ps), some r, parsed, some "pseudo"⟩
    | none => ⟨none, none, [], none⟩

/-- A latest-readings response holds usable data: some result entry has a
non-empty measurement list. -/
def goodLatest (resp : Option (List StationResult)) : Bool :=
  match resp with
  | none => false
  | some results => results.any fun res => !res.measurements.isEmpty

/-- A historical response holds usable data: a non-empty record list. -/
def goodPseudo (resp : Option (List MeasRecord)) : Bool :=
  match resp with
  | none => false
  | some l => !l.isEmpty

lemma tryLatestRadius_none_of_not_good {resp : Option (List StationResult)}
    (h : goodLatest resp = false) : tryLatestRadius resp = none := by
  cases resp with
  | none => rfl
  | some results =>
    simp only [goodLatest, List.any_eq_false] at h
    simp only [tryLatestRadius]
    rw [List.find?_eq_none.mpr h]

lemma tryLatestRadius_some_of_good {resp : Option (List StationResult)}
    (h : goodLatest resp = true) :
    ∃ res parsed, tryLatestRadius resp = some (res, parsed) := by
  cases resp with
  | none => simp [goodLatest] at h
  | some results =>
    simp only [goodLatest] at h
    have hs : (results.find? fun res => !res.measurements.isEmpty).isSome := by
      rw [List.find?_isSome]
      obtain ⟨res, hmem, hres⟩ := List.any_eq_true.mp h
      exact ⟨res, hmem, hres⟩
    obtain ⟨res, hres⟩ := Option.isSome_iff_exists.mp hs
    exact ⟨res, res.measurements.map parseMeasurement,
      by simp only [tryLatestRadius, hres]⟩

lemma sweepLatest_none {latestEP : ℕ → Option (List StationResult)}
    {radii : List ℕ} (h : ∀ r ∈ radii, goodLatest (latestEP r) = false) :
    sweepLatest latestEP radii = none := by
  induction radii with
  | nil => rfl
  | cons r rs ih =>
    have h0 := tryLatestRadius_none_of_not_good (h r (List.mem_cons_self r rs))
    simp only [sweepLatest, h0]
    exact ih fun x hx => h x (List.mem_cons_of_mem _ hx)

lemma sweepLatest_first_good {latestEP : ℕ → Option (List StationResult)}
    {radii : List ℕ} {r : ℕ}
    (h : radii.find? (fun x => goodLatest (latestEP x)) = some r) :
    ∃ res parsed, sweepLatest latestEP radii = some (res, r, parsed) := by
  induction radii with
  | nil => simp [List.find?] at h
  | cons a rs ih =>
    cases hg : goodLatest (latestEP a) with
    | true =>
      rw [show List.find? (fun x => goodLatest (latestEP x)) (a :: rs)
          = some a from List.find?_cons_of_pos _ hg] at h
      obtain rfl : a = r := Option.some.inj h
      obtain ⟨res, parsed, ht⟩ := tryLatestRadius_some_of_good hg
      exact ⟨res, parsed, by simp only [sweepLatest, ht]⟩
    | false =>
      rw [show List.find? (fun x => goodLatest (latestEP x)) (a :: rs)
          = List.find? (fun x => goodLatest (latestEP x)) rs from
          List.find?_cons_of_neg _ (by simp [hg])] at h
      obtain ⟨res, parsed, hs⟩ := ih h
      exact ⟨res, parsed,
        by simp only [sweepLatest, tryLatestRadius_none_of_not_good hg, hs]⟩

lemma sweepPseudo_none {measEP : ℕ → Option (List MeasRecord)}
    {radii : List ℕ} (h : ∀ r ∈ radii, goodPseudo (measEP r) = false) :
    sweepPseudo measEP radii = none := by
  induction radii with
  | nil => rfl
  | cons r rs ih =>
    have hr := h r (List.mem_cons_self r rs)
    have htail := ih fun x hx => h x (List.mem_cons_of_mem _ hx)
    cases hm : measEP r with
    | none => simp only [sweepPseudo, hm]; exact htail
    | some l =>
      rw [hm] at hr
      simp only [goodPseudo, Bool.not_eq_false'] at hr
      simp only [sweepPseudo, hm, hr, if_true]
      exact htail

/-- C4: the resolver sweeps the radii in order against the latest-readings
endpoint, and at the first radius whose response holds a result with a
non-empty measurement list it returns with mode `"latest"`, that radius, and
a value that does not depend on the historical endpoint at all (the
historical endpoint is never queried); a failed request at one radius leaves
the sweep identical to the sweep over the remaining radii; and when no radius
yields latest data nor historical data the resolver returns the empty result
`(None, None, [], None)` with mode absent. -/
theorem fetch_openaq_adaptive_spec :
    (∀ (latestEP : ℕ → Option (List StationResult))
       (measEP measEP2 : ℕ → Option (List MeasRecord))
       (radii : List ℕ) (r : ℕ),
      radii.find? (fun x => goodLatest (latestEP x)) = some r →
      (fetch_openaq_adaptive latestEP measEP radii).mode = some "latest" ∧
      (fetch_openaq_adaptive latestEP measEP radii).radius = some r ∧
      fetch_openaq_adaptive latestEP measEP radii =
        fetch_openaq_adaptive latestEP measEP2 radii) ∧
    (∀ (latestEP : ℕ → Option (List StationResult)) (r : ℕ) (rs : List ℕ),
      latestEP r = none →
      sweepLatest latestEP (r :: rs) = sweepLatest latestEP rs) ∧
    (∀ (latestEP : ℕ → Option (List StationResult))
       (measEP : ℕ → Option (List MeasRecord)) (radii : List ℕ),
      (∀ r ∈ radii,
        goodLatest (latestEP r) = false ∧ goodPseudo (measEP r) = false) →
      fetch_openaq_adaptive latestEP measEP radii = ⟨none, none, [], none⟩) := by
  refine ⟨?_, ?_, ?_⟩
  · intro latestEP measEP measEP2 radii r h
    obtain ⟨res, parsed, hs⟩ := sweepLatest_first_good h
    have e1 : fetch_openaq_adaptive latestEP measEP radii =
        ⟨some (Sum.inl res), some r, parsed, some "latest"⟩ := by
      simp only [fetch_openaq_adaptive, hs]
    have e2 : fetch_openaq_adaptive latestEP measEP2 radii =
        ⟨some (Sum.inl res), some r, parsed, some "latest"⟩ := by
      simp only [fetch_openaq_adaptive, hs]
    rw [e1, e2]
    exact ⟨rfl, rfl, rfl⟩
  · intro latestEP r rs h
    simp only [sweepLatest, h, tryLatestRadius]
  · intro latestEP measEP radii h
    simp only [fetch_openaq_adaptive,
      sweepLatest_none fun r hr => (h r hr).1,
      sweepPseudo_none fun r hr => (h r hr).2]

/-- Witness for C4 part 1: a single-radius sweep whose latest endpoint
answers with one `pm25` measurement resolves in mode `"latest"` at that
radius, independent of the historical endpoint. -/
theorem fetch_openaq_adaptive_spec_witness :
    (fetch_openaq_adaptive
        (fun _ => some [⟨[⟨some "pm25", JVal.jnum 10, none, some "t"⟩]⟩])
        (fun _ => none) [20000]).mode = some "latest" ∧
    (fetch_openaq_adaptive
        (fun _ => some [⟨[⟨some "pm25", JVal.jnum 10, none, some "t"⟩]⟩])
        (fun _ => none) [20000]).radius = some 20000 ∧
    fetch_openaq_adaptive
        (fun _ => some [⟨[⟨some "pm25", JVal.jnum 10, none, some "t"⟩]⟩])
        (fun _ => none) [20000] =
      fetch_openaq_adaptive
        (fun _ => some [⟨[⟨some "pm25", JVal.jnum 10, none, some "t"⟩]⟩])
        (fun _ => some []) [20000] :=
  fetch_openaq_adaptive_spec.1 _ _ _ [20000] 20000 rfl

/-! ## Pollutant completion (`polls` / `live_flags`, app.py lines 362-413) -/

/-- The six canonical pollutant keys of the `polls` dict. -/
inductive Key where
  | pm25
  | pm10
  | no2
  | so2
  | o3
  | co
deriving DecidableEq

/-- A slot of the `polls` dict: `None`, a float, or a raw non-numeric value
kept verbatim after a failed `float()` (including the `"—"` sentinel). -/
inductive PyVal (α : Type*) where
  | none
  | num (x : α)
  | str (s : String)
deriving DecidableEq

/-- The slot holds a numeric value. -/
def PyVal.isNum {α : Type*} : PyVal α → Bool
  | num _ => true
  | _ => false

/-- The `polls` dict (fixed six keys, insertion order
`pm25, pm10, no2, so2, o3, co`). -/
structure Polls (α : Type*) where
  pm25 : PyVal α
  pm10 : PyVal α
  no2 : PyVal α
  so2 : PyVal α
  o3 : PyVal α
  co : PyVal α
deriving DecidableEq

/-- The `live_flags` dict. -/
structure Flags where
  pm25 : Bool
  pm10 : Bool
  no2 : Bool
  so2 : Bool
  o3 : Bool
  co : Bool
deriving DecidableEq

def getPoll {α : Type*} (p : Polls α) : Key → PyVal α
  | Key.pm25 => p.pm25
  | Key.pm10 => p.pm10
  | Key.no2 => p.no2
  | Key.so2 => p.so2
  | Key.o3 => p.o3
  | Key.co => p.co

def setPoll {α : Type*} (p : Polls α) : Key → PyVal α → Polls α
  | Key.pm25, v => { p with pm25 := v }
  | Key.pm10, v => { p with pm10 := v }
  | Key.no2, v => { p with no2 := v }
  | Key.so2, v => { p with so2 := v }
  | Key.o3, v => { p with o3 := v }
  | Key.co, v => { p with co := v }

def getFlag (f : Flags) : Key → Bool
  | Key.pm25 => f.pm25
  | Key.pm10 => f.pm10
  | Key.no2 => f.no2
  | Key.so2 => f.so2
  | Key.o3 => f.o3
  | Key.co => f.co

def setFlag (f : Flags) : Key → Bool → Flags
  | Key.pm25, b => { f with pm25 := b }
  | Key.pm10, b => { f with pm10 := b }
  | Key.no2, b => { f with no2 := b }
  | Key.so2, b => { f with so2 := b }
  | Key.o3, b => { f with o3 := b }
  | Key.co, b => { f with co := b }

/-- The `if key in polls` membership test on the normalized label. -/
def keyOf (s : String) : Option Key :=
  if s = "pm25" then some Key.pm25
  else if s = "pm10" then some Key.pm10
  else if s = "no2" then some Key.no2
  else if s = "so2" then some Key.so2
  else if s = "o3" then some Key.o3
  else if s = "co" then some Key.co
  else none

/-- Model of `float(v)` on a stored slot value; `pyFloat` models `float` on strings
(`none` = `ValueError`). -/
def pyFloatVal {α : Type*} (pyFloat : String → Option α) : PyVal α → Option α
  | PyVal.num x => some x
  | PyVal.str s => pyFloat s
  | PyVal.none => none

/-- app.py line 381 calls `iso_to_dt(ts)`, but `iso_to_dt` is defined nowhere
in the repository and is not an import, so the call raises `NameError`; the
bare `except:` at line 387 catches it.  The call is modelled as an
`Except.error`; the result type records that a successful parse would have
produced an optional timestamp (epoch seconds). -/
def iso_to_dt (_ts : String) : Except Unit (Option ℚ) := Except.error ()

/-- The `try:` block of the pseudo-mode liveness test (app.py 380-386):
parse the timestamp, and when it parses compare the age in hours against 48.
Unreachable past `iso_to_dt`, which raises. -/
def pseudo_live_try (now : ℚ) (ts : String) : Except Unit Bool :=
  match iso_to_dt ts with
  | Except.error e => Except.error e
  | Except.ok dtt =>
    match dtt with
    | some t => Except.ok (decide ((now - t) / 3600 ≤ 48))
    | none => Except.ok false

/-- The pseudo-mode live flag for one measurement (app.py 379-390): `False`
for an absent or empty timestamp, `False` when the `try:` block raises
(which it always does, `iso_to_dt` being undefined), else the age test. -/
def pseudo_live_flag (now : ℚ) (ts : Option String) : Bool :=
  match ts with
  | some s =>
    if s.isEmpty then false
    else
      match pseudo_live_try now s with
      | Except.ok b => b
      | Except.error _ => false
  | none => false

/-- One iteration of the measurement-ingestion loop (app.py 367-390). -/
def ingest_step {α : Type*} [LinearOrderedField α]
    (pyFloat : String → Option α) (now : ℚ) (mode : Option String)
    (st : Polls α × Flags) (m : ParsedMeas) : Polls α × Flags :=
  match keyOf (normalize_label m.parameter) with
  | Option.none => st
  | some k =>
    match m.value with
    | JVal.jnull => st
    | JVal.jnum q =>
      let p2 := setPoll st.1 k (PyVal.num ((q : α)))
      let f2 :=
        if mode = some "latest" then setFlag st.2 k true
        else if mode = some "pseudo" then
          setFlag st.2 k (pseudo_live_flag now m.lastUpdated)
        else st.2
      (p2, f2)
    | JVal.jstr s =>
      let p2 := setPoll st.1 k
        (match pyFloat s with
         | some x => PyVal.num x
         | Option.none => PyVal.str s)
      let f2 :=
        if mode = some "latest" then setFlag st.2 k true
        else if mode = some "pseudo" then
          setFlag st.2 k (pseudo_live_flag now m.lastUpdated)
        else st.2
      (p2, f2)

/-- The PM2.5 fallback block (app.py 393-403): derive from PM10 when
available (`round(float(pm10) * 0.6, 1)`), with the latitude baseline
`round(5 + abs(sin(lat/12.0)) * c, 1)` as the remaining fallback
(`c = 15` when `float(pm10)` raised, `c = 10` when PM10 is absent). -/
def pm25_fallback {α : Type*} [LinearOrderedField α] [FloorRing α]
    (sin_fn : α → α) (pyFloat : String → Option α) (lat : α)
    (st : Polls α × Flags) : Polls α × Flags :=
  match st.1.pm25 with
  | PyVal.none =>
    match st.1.pm10 with
    | PyVal.none =>
      ({ st.1 with pm25 := PyVal.num (round1 (5 + |sin_fn (lat / 12)| * 10)) },
       { st.2 with pm25 := false })
    | pm10val =>
      match pyFloatVal pyFloat pm10val with
      | some x =>
        ({ st.1 with pm25 := PyVal.num (round1 (x * (6/10))) },
         { st.2 with pm25 := false })
      | Option.none =>
        ({ st.1 with pm25 := PyVal.num (round1 (5 + |sin_fn (lat / 12)| * 15)) },
         { st.2 with pm25 := false })
  | _ => st

/-- One iteration of the `for k in polls` completion loop (app.py 405-413):
derive a still-missing pollutant from the resolved PM2.5 with a bounded
random multiplier, or store the `"—"` sentinel when even PM2.5 is not
numeric.  One `np.random.uniform(0.6, 1.4)` draw per derived key is modelled
by `uniform`. -/
def derive_other {α : Type*} [LinearOrderedField α] [FloorRing α]
    (pyFloat : String → Option α) (uniform : Key → α)
    (st : Polls α × Flags) (k : Key) : Polls α × Flags :=
  match getPoll st.1 k with
  | PyVal.none =>
    if k = Key.pm25 then st
    else
      match pyFloatVal pyFloat (getPoll st.1 Key.pm25) with
      | some base =>
        (setPoll st.1 k (PyVal.num (round1 (max (1/10) (base * uniform k)))),
         setFlag st.2 k false)
      | Option.none => (setPoll st.1 k (PyVal.str "—"), setFlag st.2 k false)
  | _ => st

/-- The full pollutant completion (app.py 362-413): empty slots and flags,
the ingestion loop, the PM2.5 fallback block, then the per-key completion
loop in the dict's insertion order. -/
def complete {α : Type*} [LinearOrderedField α] [FloorRing α]
    (sin_fn : α → α) (pyFloat : String → Option α) (uniform : Key → α)
    (now : ℚ) (lat : α) (parsed : List ParsedMeas) (mode : Option String) :
    Polls α × Flags :=
  let st0 : Polls α × Flags :=
    (⟨PyVal.none, PyVal.none, PyVal.none, PyVal.none, PyVal.none, PyVal.none⟩,
     ⟨false, false, false, false, false, false⟩)
  let st1 := parsed.foldl (ingest_step pyFloat now mode) st0
  let st2 := pm25_fallback sin_fn pyFloat lat st1
  [Key.pm25, Key.pm10, Key.no2, Key.so2, Key.o3, Key.co].foldl
    (derive_other pyFloat uniform) st2

/-- C2 (code bug): because `iso_to_dt` is undefined and the resulting
`NameError` is swallowed by the bare `except:`, the pseudo-mode live flag is
`false` for EVERY timestamp — in particular for the failing input of a
`pm25` measurement whose timestamp age is exactly 48.0 hours, where the spec
requires `true`. -/
theorem pseudo_live_flag_always_false :
    (∀ (now : ℚ) (ts : Option String), pseudo_live_flag now ts = false) ∧
    (complete (α := ℚ) (fun x => x) (fun _ => Option.none) (fun _ => 1)
        172800 0 [⟨some "pm25", JVal.jnum 10, some "1970-01-01T00:00:00Z"⟩]
        (some "pseudo")).2.pm25 = false := by
  constructor
  · intro now ts
    cases ts with
    | none => rfl
    | some s => simp [pseudo_live_flag, pseudo_live_try, iso_to_dt]
  · rfl

/-- C3: when the ground-station resolver comes back empty (every radius of
both endpoints failed or returned nothing), the resolver output is the empty
quadruple, and the completion engine still assigns a numeric value to each of
the six canonical pollutant keys with every live flag false. -/
theorem completion_total_on_empty_resolver {α : Type}
    [LinearOrderedField α] [FloorRing α]
    (sin_fn : α → α) (pyFloat : String → Option α) (uniform : Key → α)
    (now : ℚ) (lat : α)
    (latestEP : ℕ → Option (List StationResult))
    (measEP : ℕ → Option (List MeasRecord)) (radii : List ℕ)
    (hL : ∀ r ∈ radii, latestEP r = none)
    (hM : ∀ r ∈ radii, measEP r = none) :
    fetch_openaq_adaptive latestEP measEP radii = ⟨none, none, [], none⟩ ∧
    (∀ k : Key,
      (getPoll (complete sin_fn pyFloat uniform now lat [] none).1 k).isNum
        = true ∧
      getFlag (complete sin_fn pyFloat uniform now lat [] none).2 k = false) := by
  constructor
  · have h1 : ∀ r ∈ radii, goodLatest (latestEP r) = false := by
      intro r hr; rw [hL r hr]; rfl
    have h2 : ∀ r ∈ radii, goodPseudo (measEP r) = false := by
      intro r hr; rw [hM r hr]; rfl
    simp only [fetch_openaq_adaptive, sweepLatest_none h1, sweepPseudo_none h2]
  · intro k
    cases k <;> exact ⟨rfl, rfl⟩

/-- Witness for C3 with concrete endpoints that always fail, at `ℚ` with a
zero sine stub. -/
theorem completion_total_on_empty_resolver_witness :
    fetch_openaq_adaptive (fun _ => none) (fun _ => none) [5000] =
      ⟨none, none, [], none⟩ ∧
    (getPoll (complete (α := ℚ) (fun _ => 0) (fun _ => Option.none)
        (fun _ => 1) 0 0 [] none).1 Key.no2).isNum = true ∧
    getFlag (complete (α := ℚ) (fun _ => 0) (fun _ => Option.none)
        (fun _ => 1) 0 0 [] none).2 Key.no2 = false := by
  have h := completion_total_on_empty_resolver (α := ℚ) (fun _ => 0)
    (fun _ => Option.none) (fun _ => 1) 0 0 (fun _ => none) (fun _ => none)
    [5000] (fun r _ => rfl) (fun r _ => rfl)
  exact ⟨h.1, (h.2 Key.no2).1, (h.2 Key.no2).2⟩

end AirLens
